import Mathlib

/-
Verification of the Speech Recognition Orchestrator of the Translator_saltybot
repository.  The Python sources are shallowly embedded: pure helper functions
become Lean functions on Nat / Int / String, the Redis quota counter becomes
explicit state passing over a small state record, and the orchestrator control
flow becomes a function from an abstract run descriptor to its terminal
outcome and refund count.
-/

namespace SaltyBot

/- ===================== String helpers (Python semantics) ===================== -/

/-- Python whitespace for str.strip (the characters relevant to this code base). -/
def pySpace (c : Char) : Bool :=
  c == ' ' || c == '\t' || c == '\n' || c == '\r' || c == '\x0b' || c == '\x0c'

/-- Python str.lower restricted to the alphabets this code base manipulates:
ASCII, Latin-1 letters, the Latin-Extended letters occurring in the hint
lexicons, the Vietnamese additional range and Cyrillic.  All other code points
are fixed, matching CPython on every input the embedded functions inspect. -/
def pyLowerChar (c : Char) : Char :=
  let n := c.toNat
  if 0x41 ≤ n ∧ n ≤ 0x5A then Char.ofNat (n + 0x20)
  else if (0xC0 ≤ n ∧ n ≤ 0xDE) ∧ n ≠ 0xD7 then Char.ofNat (n + 0x20)
  else if 0x410 ≤ n ∧ n ≤ 0x42F then Char.ofNat (n + 0x20)
  else if 0x400 ≤ n ∧ n ≤ 0x40F then Char.ofNat (n + 0x50)
  else if (0x1EA0 ≤ n ∧ n ≤ 0x1EF9) ∧ n % 2 = 0 then Char.ofNat (n + 1)
  else if n ∈ [0x104, 0x106, 0x118, 0x141, 0x143, 0x15A, 0x179, 0x17B, 0x17D,
               0x110, 0x1A0, 0x1AF] then Char.ofNat (n + 1)
  else if n = 0x1E9E then Char.ofNat 0xDF
  else c

/-- Python str.lower over a whole string. -/
def pyLower (s : String) : String :=
  String.mk (s.data.map pyLowerChar)

/-- Python str.strip with no argument. -/
def pyStrip (s : String) : String :=
  String.mk (((s.data.dropWhile pySpace).reverse.dropWhile pySpace).reverse)

/-- Does the character list start with the given pattern list. -/
def listStarts : List Char → List Char → Bool
  | _, [] => true
  | [], _ :: _ => false
  | a :: l, b :: p => a == b && listStarts l p

/-- Does the character list contain the pattern list as a contiguous run. -/
def listHasSub : List Char → List Char → Bool
  | [], p => p.isEmpty
  | a :: l, p => listStarts (a :: l) p || listHasSub l p

/-- Python substring test: pat in s. -/
def strHasSub (s pat : String) : Bool :=
  listHasSub s.data pat.data

/-- Python str.endswith. -/
def strEnds (s pat : String) : Bool :=
  listStarts s.data.reverse pat.data.reverse

/- ===================== app_redis.py : STT daily-seconds quota ===================== -/

/-- State of one Redis quota key: the stored integer (none if the key is
absent; Redis GET of an absent key is read as 0 by the Lua script) and the
TTL last applied to the key (none if no expiry is set). -/
structure RKey where
  val : Option Int
  ttl : Option Nat
deriving DecidableEq, Repr

/-- A fresh (absent) daily key. -/
def freshKey : RKey := ⟨none, none⟩

/-- The Lua script LUA_RESERVE of app_redis.py: read the counter (absent read
as 0); if cur + delta > limit return -1 without mutation; otherwise INCRBY by
delta and, when the ttl argument is positive, EXPIRE the key; return the new
value. -/
def luaReserve (limit delta : Int) (ttl : Nat) (st : RKey) : Int × RKey :=
  let cur := st.val.getD 0
  if cur + delta > limit then (-1, st)
  else
    let newv := cur + delta
    (newv, ⟨some newv, if ttl > 0 then some ttl else st.ttl⟩)

/-- stt_try_reserve with an initialized client and a healthy store: runs the
Lua script with ttl = seconds-until-local-midnight + 60 and reports success
as result different from -1.  (The fail-open paths are modelled separately
below.) -/
def stt_try_reserve (seconds : Nat) (daily_limit : Int) (midnight : Nat)
    (st : RKey) : Bool × RKey :=
  let r := luaReserve daily_limit ((seconds : Int)) (midnight + 60) st
  (r.1 != -1, r.2)

/-- stt_refund with an initialized client and a healthy store: DECRBY the key
(an absent key is created at 0 - seconds; DECRBY preserves any TTL), then SET
it to 0 if the new value is negative — a plain SET clears the TTL — then
EXPIRE to midnight + 60 if the key carries no TTL at that point. -/
def stt_refund (seconds : Nat) (midnight : Nat) (st : RKey) : RKey :=
  let newv := st.val.getD 0 - (seconds : Int)
  let v := if newv < 0 then 0 else newv
  let t0 : Option Nat := if newv < 0 then none else st.ttl
  let t := match t0 with
    | some t1 => some t1
    | none => some (midnight + 60)
  ⟨some v, t⟩

/-- Fold a list of reserve requests (seconds, midnight) over a key state. -/
def reserveFold (limit : Int) : List (Nat × Nat) → RKey → RKey
  | [], st => st
  | r :: rs, st => reserveFold limit rs (stt_try_reserve r.1 limit r.2 st).2

/- ===================== app_redis.py : fail-open wrappers (C5) ===================== -/

/-- Outcome of one interaction with the Redis store: a successful reply, or a
raised exception. -/
inductive StoreOp (α : Type) where
  | ok (v : α)
  | errRaise
deriving DecidableEq, Repr

/-- stt_try_reserve as seen by its caller, with the effect log it emits.
client = false models a None module-level client (not initialized / library
missing); a raised store error is modelled by StoreOp.errRaise.  The source
emits no log record on any of these paths (app_redis.py contains no logging
at all), which the second component records. -/
def stt_try_reserve_ext (client : Bool) (op : StoreOp Int) : Bool × List String :=
  if !client then (true, [])
  else
    match op with
    | .ok res => (res != -1, [])
    | .errRaise => (true, [])

/-- stt_get_used as seen by its caller, with its (empty) effect log. -/
def stt_get_used_ext (client : Bool) (op : StoreOp Int) : Int × List String :=
  if !client then (0, [])
  else
    match op with
    | .ok v => (v, [])
    | .errRaise => (0, [])

/- ===================== events.py : orchestrator control flow (C2) ===================== -/

/-- The two observations events.py makes of one recognizer attempt result
(text, raw): whether (text or "").strip() is non-empty, and whether the
attempt is flagged as an API error, i.e. text.startswith a cross mark or
raw.get a truthy error entry.  The two are independent in the source (a poll
timeout yields empty text with a raw error). -/
structure AttemptRes where
  hasText : Bool
  isErr : Bool
deriving DecidableEq, Repr, Fintype

/-- Descriptor of one run of the inner closure of events.py after the user
picked a language: the boolean outcomes of every in-scope fallible step, and
the results the four possible recognizer attempts would return.  Steps of the
out-of-scope chat adapter (progress edits, final reply rendering) are wrapped
in try/except or external to the specified system and are not modelled. -/
structure RunInput where
  reserveOk : Bool
  readOk : Bool
  normThrows : Bool
  didTrans : Bool
  retransOk : Bool
  a1 : AttemptRes
  a2 : AttemptRes
  a3 : AttemptRes
  a4 : AttemptRes
deriving DecidableEq, Repr

/-- Terminal classification of a run, read off the return points of
events.py: quota denial, unreadable bytes, the explicit API-error return
after attempt 1, the no-speech return, the success path, and the generic
exception handler. -/
inductive Terminal where
  | quotaExceeded
  | readFail
  | apiError
  | noSpeech
  | success
  | internalFail
deriving DecidableEq, Repr

/-- What a run produced: its terminal state, how many times stt_refund was
invoked, and whether the result of the last recognizer attempt that actually
ran carried the API-error flag. -/
structure RunOut where
  terminal : Terminal
  refunds : Nat
  lastErr : Bool
deriving DecidableEq, Repr

/-- The post-reservation control flow of the run stt closure in events.py.
Attempt 1 is strict; a flagged error there refunds and returns.  If the text
is empty, attempt 2 runs with alternates and its text is adopted only when
non-empty.  If still empty and the input was not already transcoded, the
retry block re-transcodes (its exceptions are swallowed) and runs attempts 3
and 4 the same way.  Empty text ends in no-speech without refund; non-empty
text reaches the post phase without any further error check. -/
def runStt (inp : RunInput) : RunOut :=
  if !inp.reserveOk then ⟨.quotaExceeded, 0, false⟩
  else if !inp.readOk then ⟨.readFail, 1, false⟩
  else if inp.normThrows then ⟨.internalFail, 1, false⟩
  else if inp.a1.isErr then ⟨.apiError, 1, true⟩
  else
    let s1 : Bool × Bool := (inp.a1.hasText, inp.a1.isErr)
    let s2 : Bool × Bool :=
      if !s1.1 then (if inp.a2.hasText then (true, inp.a2.isErr) else (false, inp.a2.isErr))
      else s1
    let s3 : Bool × Bool :=
      if !s2.1 && !inp.didTrans then
        if inp.retransOk then
          if inp.a3.hasText then (true, inp.a3.isErr)
          else (inp.a4.hasText, inp.a4.isErr)
        else s2
      else s2
    if !s3.1 then ⟨.noSpeech, 0, s3.2⟩
    else ⟨.success, 0, s3.2⟩

/- ===================== stt_google_async.py : GCS object cleanup (C3) ===================== -/

/-- The control-flow paths of transcribe long audio bytes that decide the fate
of the uploaded GCS object: upload raised (no object stored), the start call
raised, the start reply had no operation name, poll disabled, the poll raised,
or the poll returned (done, error or timeout alike). -/
inductive LRPath where
  | uploadFail
  | startFail
  | noName
  | noPoll
  | pollFail
  | polled
deriving DecidableEq, Repr

/-- What happens to the uploaded object on a path. -/
inductive Cleanup where
  | leak
  | immediate
  | scheduled
deriving DecidableEq, Repr

/-- Cleanup decision of transcribe long audio bytes, as a function of the
path taken, the delete-immediately policy flag and the delayed-delete seconds.
Mirrors the four try blocks of the source: the start-failure block only honors
the immediate flag; the no-name, poll-failure and polled blocks honor
immediate first and otherwise a positive delay; the no-poll block only honors
a positive delay. -/
def cleanupAction (p : LRPath) (delete_immediately : Bool)
    (delete_after_seconds : Nat) : Cleanup :=
  match p with
  | .uploadFail => .leak
  | .startFail => if delete_immediately then .immediate else .leak
  | .noName =>
      if delete_immediately then .immediate
      else if delete_after_seconds > 0 then .scheduled else .leak
  | .noPoll => if delete_after_seconds > 0 then .scheduled else .leak
  | .pollFail =>
      if delete_immediately then .immediate
      else if delete_after_seconds > 0 then .scheduled else .leak
  | .polled =>
      if delete_immediately then .immediate
      else if delete_after_seconds > 0 then .scheduled else .leak

/- ===================== stt_lang_utils.py : script ranges and hints ===================== -/

/-- Is the character inside the inclusive code-point range. -/
def charBetween (c : Char) (lo hi : Nat) : Bool :=
  lo ≤ c.toNat && c.toNat ≤ hi

/-- TH RANGE search. -/
def has_thai (s : String) : Bool :=
  s.data.any fun c => charBetween c 0xE00 0xE7F

/-- JA RANGE search (hiragana, katakana, half-width kana). -/
def has_japanese (s : String) : Bool :=
  s.data.any fun c =>
    charBetween c 0x3040 0x30FF || charBetween c 0x31F0 0x31FF ||
    charBetween c 0xFF66 0xFF9F

/-- CJK RANGE search. -/
def has_chinese (s : String) : Bool :=
  s.data.any fun c => charBetween c 0x4E00 0x9FFF

/-- KO RANGE search. -/
def has_korean (s : String) : Bool :=
  s.data.any fun c => charBetween c 0xAC00 0xD7AF

/-- CYR RANGE search. -/
def has_cyrillic (s : String) : Bool :=
  s.data.any fun c => charBetween c 0x400 0x4FF

/-- KH RANGE search. -/
def has_khmer (s : String) : Bool :=
  s.data.any fun c => charBetween c 0x1780 0x17FF || charBetween c 0x19E0 0x19FF

/-- MY RANGE search. -/
def has_myanmar (s : String) : Bool :=
  s.data.any fun c => charBetween c 0x1000 0x109F

/-- DV RANGE search. -/
def has_devanagari (s : String) : Bool :=
  s.data.any fun c => charBetween c 0x900 0x97F

/-- AR RANGE search. -/
def has_arabic (s : String) : Bool :=
  s.data.any fun c =>
    charBetween c 0x600 0x6FF || charBetween c 0x750 0x77F ||
    charBetween c 0x8A0 0x8FF

/-- VI HINTS word set. -/
def VI_HINTS : List String :=
  ["anh", "em", "và", "của", "không", "được", "cảm", "ơn", "tôi", "bạn"]

/-- ID HINTS word set. -/
def ID_HINTS : List String :=
  ["terima", "kasih", "apa", "kabar", "tidak", "ya", "saya", "kamu", "anda", "bagus"]

/-- FIL HINTS word set. -/
def FIL_HINTS : List String :=
  ["salamat", "maganda", "mahal", "kita", "bakit", "saan", "paano", "ito", "iyan",
   "iyon", "wala", "meron", "opo", "po", "oo", "hindi", "kami", "kayo", "sila",
   "ikaw", "ako", "mga", "ang", "ng", "sa"]

/-- FR HINTS word set. -/
def FR_HINTS : List String :=
  ["et", "merci", "non", "oui", "avec", "être", "c\x27est", "pas", "une", "des",
   "aux", "bonjour", "au revoir"]

/-- DE HINTS word set. -/
def DE_HINTS : List String :=
  ["und", "nicht", "danke", "nein", "ja", "ich", "über", "straße", "eine",
   "einen", "gibt", "bitte"]

/-- ES HINTS word set. -/
def ES_HINTS : List String :=
  ["gracias", "hola", "buenos", "no", "sí", "por", "favor", "porque", "pero",
   "muy", "adiós"]

/-- IT HINTS word set. -/
def IT_HINTS : List String :=
  ["grazie", "ciao", "non", "sì", "per", "favore", "sono", "sei", "bene"]

/-- PT HINTS word set. -/
def PT_HINTS : List String :=
  ["obrigado", "olá", "não", "sim", "por", "favor", "você", "está", "tudo", "bom"]

/-- PL HINTS word set. -/
def PL_HINTS : List String :=
  ["dziękuję", "cześć", "nie", "tak", "proszę", "bardzo", "dobrze", "jestem",
   "jesteś"]

/-- UK CYRL SPECIAL letter set. -/
def UK_CYRL_SPECIAL : List Char :=
  ['Ґ', 'Є', 'І', 'Ї', 'ґ', 'є', 'і', 'ї']

/-- Case-insensitive substring hint test shared by all looks functions. -/
def hintAny (hints : List String) (s : String) : Bool :=
  let s2 := pyLower s
  hints.any fun w => strHasSub s2 w

/-- looks vietnamese. -/
def looks_vietnamese (s : String) : Bool := hintAny VI_HINTS s

/-- looks indonesian. -/
def looks_indonesian (s : String) : Bool := hintAny ID_HINTS s

/-- looks filipino. -/
def looks_filipino (s : String) : Bool := hintAny FIL_HINTS s

/-- looks french. -/
def looks_french (s : String) : Bool := hintAny FR_HINTS s

/-- looks german. -/
def looks_german (s : String) : Bool := hintAny DE_HINTS s

/-- looks spanish. -/
def looks_spanish (s : String) : Bool := hintAny ES_HINTS s

/-- looks italian. -/
def looks_italian (s : String) : Bool := hintAny IT_HINTS s

/-- looks portuguese. -/
def looks_portuguese (s : String) : Bool := hintAny PT_HINTS s

/-- looks polish. -/
def looks_polish (s : String) : Bool := hintAny PL_HINTS s

/-- The any expression over UK CYRL SPECIAL used both in context bias and in
script detection. -/
def hasUkSpecial (s : String) : Bool :=
  s.data.any fun c => UK_CYRL_SPECIAL.contains c

/-- detect script from text: classify recognized text to a BCP-47 code by
script range in source priority order, then by Latin hint words on the
lowercased text, defaulting to en-US. -/
def detect_script_from_text (s : String) : String :=
  if has_thai s then "th-TH"
  else if has_japanese s then "ja-JP"
  else if has_korean s then "ko-KR"
  else if has_chinese s then "cmn-Hans-CN"
  else if has_khmer s then "km-KH"
  else if has_myanmar s then "my-MM"
  else if has_devanagari s then "hi-IN"
  else if has_arabic s then "ar-SA"
  else if has_cyrillic s then
    if hasUkSpecial s then "uk-UA" else "ru-RU"
  else
    let s2 := pyLower s
    if looks_vietnamese s2 then "vi-VN"
    else if looks_indonesian s2 then "id-ID"
    else if looks_filipino s2 then "fil-PH"
    else if looks_french s2 then "fr-FR"
    else if looks_german s2 then "de-DE"
    else if looks_spanish s2 then "es-ES"
    else if looks_italian s2 then "it-IT"
    else if looks_portuguese s2 then "pt-PT"
    else if looks_polish s2 then "pl-PL"
    else "en-US"

/- ===================== stt_lang_utils.py : two-round alternate chooser ===================== -/

/-- Python truthiness of an optional score dictionary. -/
def biasTruthy (b : Option (List (String × Rat))) : Bool :=
  match b with
  | none => false
  | some l => !l.isEmpty

/-- dict.get with default 0.0 on an association-list score dictionary. -/
def biasGet (b : Option (List (String × Rat))) (k : String) : Rat :=
  match b with
  | none => 0
  | some l => ((l.find? fun p => p.1 == k).map Prod.snd).getD 0

/-- The Python idiom list-slice or None. -/
def listOrNone (l : List String) : Option (List String) :=
  if l.isEmpty then none else some l

/-- Python truthiness of not alts round1: None and the empty list are falsy. -/
def roundFalsy (o : Option (List String)) : Bool :=
  match o with
  | none => true
  | some l => l.isEmpty

/-- choose alts strict first: round 1 is None when the caller forces strict
behaviour, the bias dictionary is truthy and the base language score reaches
the confidence threshold, otherwise the first up-to-limit prefix of the smart
list (or None when empty); round 2 is the next up-to-limit slice after
removing the explicit exclude list (when truthy), with a final fallback to
the first slice when both rounds came out empty and the list is non-empty. -/
def choose_alts_strict_first (base_lang : String) (alt_smart : List String)
    (force_strict_if_confident : Bool)
    (context_bias : Option (List (String × Rat)))
    (strict_confidence_threshold : Rat)
    (exclude_in_fallback : Option (List String))
    (per_round_limit : Nat) :
    Option (List String) × Option (List String) :=
  let seq := alt_smart
  let alts_round1 :=
    if force_strict_if_confident && biasTruthy context_bias then
      if biasGet context_bias base_lang ≥ strict_confidence_threshold then none
      else listOrNone (seq.take per_round_limit)
    else listOrNone (seq.take per_round_limit)
  let rest0 := seq.drop per_round_limit
  let rest :=
    match exclude_in_fallback with
    | some ex => if !ex.isEmpty then rest0.filter (fun x => !ex.contains x) else rest0
    | none => rest0
  let alts_round2 := listOrNone (rest.take per_round_limit)
  let alts_round2 :=
    if alts_round2.isNone && roundFalsy alts_round1 && !seq.isEmpty then
      some (seq.take per_round_limit)
    else alts_round2
  (alts_round1, alts_round2)

/- ===================== stt_google_sync.py : language normalization ===================== -/

/-- LANG MAP BASE TO BCP of the sync client. -/
def langMapBaseToBcp : List (String × String) :=
  [("th", "th-TH"), ("en", "en-US"), ("ja", "ja-JP"), ("zh", "cmn-Hans-CN"),
   ("ko", "ko-KR"), ("vi", "vi-VN"), ("id", "id-ID"), ("tl", "tl-PH"),
   ("fil", "fil-PH"), ("km", "km-KH"), ("my", "my-MM"), ("hi", "hi-IN"),
   ("ar", "ar-SA"), ("ru", "ru-RU"), ("uk", "uk-UA"), ("fr", "fr-FR"),
   ("de", "de-DE"), ("es", "es-ES"), ("it", "it-IT"), ("pt", "pt-PT"),
   ("pl", "pl-PL"), ("yue", "yue-Hant-HK"), ("zh-tw", "cmn-Hant-TW"),
   ("zh_tw", "cmn-Hant-TW"), ("zh-cn", "cmn-Hans-CN"), ("zh_cn", "cmn-Hans-CN")]

/-- dict.get on a string-to-string association list. -/
def mapGet (m : List (String × String)) (k : String) : Option String :=
  (m.find? fun p => p.1 == k).map Prod.snd

/-- The part of a code before the first dash (str.split on dash, head). -/
def baseOf (low : String) : String :=
  String.mk (low.data.takeWhile fun ch => ch ≠ '-')

/-- norm lang of the sync client: strip, lowercase with underscores turned
into dashes, pass a dashed code through when its base is unknown, otherwise
map the full lowered code or its base, falling back to the stripped input. -/
def norm_lang (code : Option String) : Option String :=
  match code with
  | none => none
  | some c0 =>
    if c0.isEmpty then none
    else
      let c := pyStrip c0
      let low := String.mk ((pyLower c).data.map fun ch => if ch == '_' then '-' else ch)
      let base := baseOf low
      if low.data.contains '-' && (mapGet langMapBaseToBcp base).isNone then some c
      else
        match mapGet langMapBaseToBcp low with
        | some m => some m
        | none =>
          match mapGet langMapBaseToBcp base with
          | some m => some m
          | none => some c

/-- One iteration of the de-duplicating loop of norm alt codes: the
accumulator carries the output list and the set of lowercased codes already
seen. -/
def normStep (acc : List String × List String) (x : String) :
    List String × List String :=
  match norm_lang (some x) with
  | none => acc
  | some m =>
    let key := pyLower m
    if acc.2.contains key then acc else (acc.1 ++ [m], acc.2 ++ [key])

/-- norm alt codes of the sync client: normalize every entry, drop failures,
de-duplicate by lowercased code keeping first occurrences, and collapse an
empty outcome to None. -/
def norm_alt_codes (codes : Option (List String)) : Option (List String) :=
  match codes with
  | none => none
  | some cs =>
    if cs.isEmpty then none
    else
      let out := (cs.foldl normStep ([], [])).1
      if out.isEmpty then none else some out

/-- The code-switch insurance applied on each delegation of the sync client
to the long-running client: when the primary base is th, km or my and the
alternates are falsy or miss en-US, prepend en-US. -/
def ensure_en_alts (language_code : String) (alt_codes : Option (List String)) :
    Option (List String) :=
  let needs := baseOf (pyLower language_code) == "th" ||
               baseOf (pyLower language_code) == "km" ||
               baseOf (pyLower language_code) == "my"
  let altsFalsy := match alt_codes with
    | none => true
    | some l => l.isEmpty
  let hasEn := match alt_codes with
    | none => false
    | some l => l.contains "en-US"
  if needs && (altsFalsy || !hasEn) then some ("en-US" :: alt_codes.getD [])
  else alt_codes

/-- The long-running client turns its alt langs argument into the config
field value: keep non-empty entries, collapse an empty list to None (an
absent field). -/
def longrun_alt_codes (alt_langs : Option (List String)) : Option (List String) :=
  let l := (alt_langs.getD []).filter fun c => !c.isEmpty
  if l.isEmpty then none else some l

/-- alternativeLanguageCodes as sent by the direct sync request: the config
field holds the normalized alternates when truthy and is absent otherwise. -/
def sync_direct_alts (alternative_language_codes : Option (List String)) :
    Option (List String) :=
  norm_alt_codes alternative_language_codes

/-- alternativeLanguageCodes as sent by a request the sync client delegates
to the long-running client (oversize, forced long-run or sync-too-long
fallback, which all run the same three lines): normalize, apply the en-US
insurance for th/km/my primaries, then the long-running client's own
filtering. -/
def sync_delegated_alts (lang_hint : Option String)
    (alternative_language_codes : Option (List String)) : Option (List String) :=
  let language_code := (norm_lang lang_hint).getD "th-TH"
  longrun_alt_codes (ensure_en_alts language_code
    (norm_alt_codes alternative_language_codes))

/- ===================== backend selection (events.py + stt_google_sync.py, C4) ===================== -/

/-- The extension cascade of guess mime by ext, on the lowercased name. -/
def guessMimeByName (filename : Option String) : String :=
  let name := pyLower (filename.getD "")
  if strEnds name ".wav" then "audio/wav"
  else if strEnds name ".flac" then "audio/flac"
  else if strEnds name ".mp3" then "audio/mpeg"
  else if strEnds name ".m4a" then "audio/mp4"
  else if strEnds name ".aac" then "audio/aac"
  else if strEnds name ".ogg" || strEnds name ".opus" then "audio/ogg"
  else if strEnds name ".webm" then "audio/webm"
  else if strEnds name ".mp4" then "video/mp4"
  else "application/octet-stream"

/-- guess mime by ext of the sync client: a truthy declared content type wins,
otherwise the lowercased file name extension decides, with an octet-stream
fallback. -/
def guess_mime_by_ext (filename content_type : Option String) : String :=
  match content_type with
  | some ct => if !ct.isEmpty then ct else guessMimeByName filename
  | none => guessMimeByName filename

/-- mime to encoding of the sync client. -/
def mime_to_encoding (mime : String) (filename : Option String) : String :=
  let m := pyLower mime
  let name := pyLower (filename.getD "")
  if strHasSub m "webm" || strEnds name ".webm" then "WEBM_OPUS"
  else if strHasSub m "ogg" || strEnds name ".ogg" || strEnds name ".opus" then "OGG_OPUS"
  else if strHasSub m "mpeg" || strEnds name ".mp3" then "MP3"
  else if strHasSub m "flac" || strEnds name ".flac" then "FLAC"
  else if strHasSub m "wav" || strEnds name ".wav" then "LINEAR16"
  else "ENCODING_UNSPECIFIED"

/-- should force longrun of the sync client: compressed encodings (including
ENCODING UNSPECIFIED) use the 1.8 MB bar, uncompressed WAV and FLAC the 9 MB
bar. -/
def should_force_longrun (encoding : String) (size_bytes : Nat) : Bool :=
  if encoding == "MP3" || encoding == "OGG_OPUS" || encoding == "WEBM_OPUS" ||
     encoding == "ENCODING_UNSPECIFIED"
  then size_bytes > 1800000
  else size_bytes > 9000000

/-- The recognizer backend a request ends on. -/
inductive SttBackend where
  | sync
  | long
deriving DecidableEq, Repr

/-- The size test of events.py choosing the long backend directly. -/
def events_use_long (size : Nat) : Bool := size > 9000000

/-- Whether a request entering the sync client is delegated to the
long-running client on grounds of size and encoding (the orthogonal
sync-too-long HTTP 400 fallback is response-driven and not size-based):
over 9 MB with a bucket configured, or a configured bucket with the
compressed-size force rule. -/
def sync_client_goes_long (bucket : Bool) (size : Nat)
    (filename content_type : Option String) : Bool :=
  if size > 9000000 then bucket
  else bucket && should_force_longrun
    (mime_to_encoding (guess_mime_by_ext filename content_type) filename) size

/-- The backend a normalized blob ends on when the orchestrator of events.py
runs one attempt: the 9 MB rule picks long directly, otherwise the sync
client may re-route to long. -/
def effectiveBackend (bucket : Bool) (size : Nat)
    (filename content_type : Option String) : SttBackend :=
  if events_use_long size then .long
  else if sync_client_goes_long bucket size filename content_type then .long
  else .sync

/-- Modelled from the spec words of claim C4 (refinement comparison only, not
an embedding of source code): the compressed family named by the spec, by
extension or by one of the four listed MIME types. -/
def specCompressedFamily (filename content_type : Option String) : Bool :=
  let name := pyLower (filename.getD "")
  let ct := pyLower (content_type.getD "")
  strEnds name ".mp3" || strEnds name ".m4a" || strEnds name ".mp4" ||
  strEnds name ".ogg" || strEnds name ".opus" || strEnds name ".webm" ||
  ct == "audio/ogg" || ct == "audio/webm" || ct == "audio/mpeg" ||
  ct == "video/mp4"

/-- Modelled from the spec words of claim C4 (refinement comparison only):
long-running iff over 9 MB, or compressed family and over 1.8 MB. -/
def specUseLong (size : Nat) (filename content_type : Option String) : Bool :=
  size > 9000000 || (specCompressedFamily filename content_type && size > 1800000)

/- ===================== Theorems ===================== -/

/-- Helper: one reserve keeps the counter at or below the limit. -/
theorem reserve_le_of_le (L : Int) (s m : Nat) (st : RKey)
    (h : st.val.getD 0 ≤ L) :
    ((stt_try_reserve s L m st).2).val.getD 0 ≤ L := by
  unfold stt_try_reserve luaReserve
  by_cases hc : st.val.getD 0 + (s : Int) > L
  · simp only [hc, if_true]
    exact h
  · simp only [hc, if_false]
    simp
    omega

/-- Helper: any sequence of reserves keeps the counter at or below the limit. -/
theorem reserveFold_le (L : Int) (reqs : List (Nat × Nat)) (st : RKey)
    (h : st.val.getD 0 ≤ L) :
    (reserveFold L reqs st).val.getD 0 ≤ L := by
  induction reqs generalizing st with
  | nil => simpa [reserveFold] using h
  | cons r rs ih =>
    exact ih _ (reserve_le_of_le L r.1 r.2 st h)

/-- C1 counterexample: with daily limit 0 and requested seconds 0 the claim's
clause that a reserve of s = limit from counter 0 succeeds exactly once is
false: the immediately repeated identical call succeeds as well, because the
guard cur + delta > limit does not fire at equality. -/
theorem c1_try_reserve_cex :
    (stt_try_reserve 0 0 86400 freshKey).1 = true ∧
    (stt_try_reserve 0 0 86400 (stt_try_reserve 0 0 86400 freshKey).2).1 = true := by
  decide

/-- C1 amended: for a non-negative counter, try reserve succeeds iff
cur + seconds stays within the limit; success increments the counter by
exactly the reserved seconds and refreshes the TTL to midnight + 60; failure
leaves the key untouched; a reserve of s = L from a fresh counter succeeds
exactly once provided 0 < L (at L = 0 the repeated call also succeeds); and
under any sequence of reserve calls the counter never exceeds the limit. -/
theorem c1_try_reserve_amended :
    (∀ (s m : Nat) (L : Int) (st : RKey), 0 ≤ st.val.getD 0 →
      (((stt_try_reserve s L m st).1 = true ↔ st.val.getD 0 + (s : Int) ≤ L) ∧
       ((stt_try_reserve s L m st).1 = true →
         (stt_try_reserve s L m st).2 =
           ⟨some (st.val.getD 0 + (s : Int)), some (m + 60)⟩) ∧
       ((stt_try_reserve s L m st).1 = false →
         (stt_try_reserve s L m st).2 = st))) ∧
    (∀ (L m : Nat), 0 < L →
      (stt_try_reserve L (L : Int) m freshKey).1 = true ∧
      (stt_try_reserve L (L : Int) m
        (stt_try_reserve L (L : Int) m freshKey).2).1 = false) ∧
    (∀ (L : Int) (st : RKey) (reqs : List (Nat × Nat)), st.val.getD 0 ≤ L →
      (reserveFold L reqs st).val.getD 0 ≤ L) := by
  have hA : ∀ (s m : Nat) (L : Int) (st : RKey), 0 ≤ st.val.getD 0 →
      (((stt_try_reserve s L m st).1 = true ↔ st.val.getD 0 + (s : Int) ≤ L) ∧
       ((stt_try_reserve s L m st).1 = true →
         (stt_try_reserve s L m st).2 =
           ⟨some (st.val.getD 0 + (s : Int)), some (m + 60)⟩) ∧
       ((stt_try_reserve s L m st).1 = false →
         (stt_try_reserve s L m st).2 = st)) := by
    intro s m L st h0
    unfold stt_try_reserve luaReserve
    by_cases hc : st.val.getD 0 + (s : Int) > L
    all_goals simp [hc, bne_iff_ne]
    all_goals omega
  refine ⟨hA, ?_, fun L st reqs h => reserveFold_le L reqs st h⟩
  intro L m hL
  have hfresh : (0 : Int) ≤ freshKey.val.getD 0 := by simp [freshKey]
  have h1 := hA L m (L : Int) freshKey hfresh
  have hs1 : (stt_try_reserve L (L : Int) m freshKey).1 = true := by
    refine h1.1.mpr ?_
    simp [freshKey]
  have hst := h1.2.1 hs1
  refine ⟨hs1, ?_⟩
  have h0' : (0 : Int) ≤ ((stt_try_reserve L (L : Int) m freshKey).2).val.getD 0 := by
    rw [hst]
    simp [freshKey]
  have h2 := hA L m (L : Int) (stt_try_reserve L (L : Int) m freshKey).2 h0'
  by_contra hb
  have hb' : (stt_try_reserve L (L : Int) m
      (stt_try_reserve L (L : Int) m freshKey).2).1 = true := by
    revert hb
    cases (stt_try_reserve L (L : Int) m
      (stt_try_reserve L (L : Int) m freshKey).2).1 <;> simp
  have hle := h2.1.mp hb'
  rw [hst] at hle
  simp [freshKey] at hle
  omega

/-- C1 witness: the amended theorem applied at limit 120 with a 30-second
request on a fresh key, the exactly-once clause at limit 120, and the bound
after reserving 50 then 100 seconds. -/
theorem c1_try_reserve_witness :
    ((stt_try_reserve 30 120 86400 freshKey).1 = true ↔
      freshKey.val.getD 0 + (30 : Int) ≤ 120) ∧
    (stt_try_reserve 120 ((120 : Nat) : Int) 86400 freshKey).1 = true ∧
    (reserveFold 120 [(50, 86400), (100, 86400)] freshKey).val.getD 0 ≤ 120 :=
  ⟨(c1_try_reserve_amended.1 30 86400 120 freshKey (by decide)).1,
   (c1_try_reserve_amended.2.1 120 86400 (by decide)).1,
   c1_try_reserve_amended.2.2 120 freshKey [(50, 86400), (100, 86400)] (by decide)⟩

/-- C8: two successive refunds after a single reserve on a fresh daily key
leave the stored counter at exactly 0, and in general a refund stores
max 0 (cur - seconds), never a negative value. -/
theorem c8_refund_clamps :
    (∀ (s m m2 : Nat) (L : Int),
      (stt_refund s m2 (stt_refund s m2 (stt_try_reserve s L m freshKey).2)).val =
        some 0) ∧
    (∀ (s m : Nat) (st : RKey),
      (stt_refund s m st).val = some (max 0 (st.val.getD 0 - (s : Int)))) := by
  have hv : ∀ (s m : Nat) (st : RKey),
      (stt_refund s m st).val = some (max 0 (st.val.getD 0 - (s : Int))) := by
    intro s m st
    unfold stt_refund
    by_cases hc : st.val.getD 0 - (s : Int) < 0
    · simp only [hc, if_true]
      simp
      omega
    · simp only [hc, if_false]
      simp
      omega
  refine ⟨?_, hv⟩
  intro s m m2 L
  rw [hv s m2 (stt_refund s m2 (stt_try_reserve s L m freshKey).2)]
  rw [hv s m2 (stt_try_reserve s L m freshKey).2]
  unfold stt_try_reserve luaReserve
  by_cases hc : freshKey.val.getD 0 + (s : Int) > L
  · simp only [hc, if_true]
    simp [freshKey]
  · simp only [hc, if_false]
    simp [freshKey]

/-- C5 counterexample: when the store raises, try reserve does fail open and
return true, but its effect log is empty — app_redis.py contains no logging
at all — refuting the claim's clause that the failure is logged. -/
theorem c5_failopen_cex :
    stt_try_reserve_ext true StoreOp.errRaise = (true, []) := rfl

/-- C5 amended: with an uninitialized client or a raising store, try reserve
fails open (returns true) and get used returns 0, in both cases silently,
emitting no log record. -/
theorem c5_failopen_amended :
    (∀ op : StoreOp Int, stt_try_reserve_ext false op = (true, [])) ∧
    stt_try_reserve_ext true StoreOp.errRaise = (true, []) ∧
    (∀ op : StoreOp Int, stt_get_used_ext false op = (0, [])) ∧
    stt_get_used_ext true StoreOp.errRaise = (0, []) :=
  ⟨fun _ => rfl, rfl, fun _ => rfl, rfl⟩

/-- C3 counterexample: a start failure under the delayed-deletion policy
(immediate off, delay 300 s) leaves the uploaded object with neither a delete
nor a scheduled delete, refuting the claim that no path leaks. -/
theorem c3_cleanup_cex :
    cleanupAction LRPath.startFail false 300 = Cleanup.leak := rfl

/-- C3 amended: on every path that stored an object, the object leaks exactly
when no deletion policy is configured, or the path is the start failure with
immediate deletion off (the start-failure handler never schedules the delayed
delete), or the path is the poll-disabled return with a zero delay (which
never deletes immediately); on all other paths the object is deleted
immediately or scheduled per policy. -/
theorem c3_cleanup_amended :
    ∀ (p : LRPath) (di : Bool) (das : Nat), p ≠ LRPath.uploadFail →
      (cleanupAction p di das = Cleanup.leak ↔
        ((di = false ∧ das = 0) ∨ (p = LRPath.startFail ∧ di = false) ∨
         (p = LRPath.noPoll ∧ das = 0))) := by
  intro p di das hp
  cases p
  · exact absurd rfl hp
  all_goals
    cases di <;> by_cases hd : das > 0 <;>
      simp [cleanupAction, hd] <;> omega

/-- C3 witness: the amended theorem applied to the successful polled path
with immediate deletion on. -/
theorem c3_cleanup_witness :
    cleanupAction LRPath.polled true 0 = Cleanup.leak ↔
      ((true = false ∧ 0 = 0) ∨ (LRPath.polled = LRPath.startFail ∧ true = false) ∨
       (LRPath.polled = LRPath.noPoll ∧ 0 = 0)) :=
  c3_cleanup_amended LRPath.polled true 0 (by decide)

/-- C2 counterexample: a run whose strict first attempt returns empty text
without error and whose second attempt returns an API error with non-empty
error text ends with the error flag on its last recognizer result, yet the
orchestrator records it as success and performs no refund — the error check
runs only after attempt 1. -/
theorem c2_refund_cex :
    runStt ⟨true, true, false, true, false, ⟨false, false⟩, ⟨true, true⟩,
            ⟨false, false⟩, ⟨false, false⟩⟩ =
      ⟨Terminal.success, 0, true⟩ := rfl

/-- C2 amended: the orchestrator refunds the reserved seconds exactly once
iff the run terminates as unreadable input, as an uncaught internal failure,
or as the explicit API-error return — which can only arise from attempt 1;
refunds never exceed one; and runs ending in quota exceeded, no speech or
success refund nothing (API errors in later attempts are folded into no
speech or success without refund). -/
theorem c2_refund_amended :
    ∀ inp : RunInput,
      ((runStt inp).refunds = 1 ↔
        ((runStt inp).terminal = Terminal.readFail ∨
         (runStt inp).terminal = Terminal.internalFail ∨
         (runStt inp).terminal = Terminal.apiError)) ∧
      (runStt inp).refunds ≤ 1 ∧
      ((runStt inp).terminal = Terminal.apiError → inp.a1.isErr = true) ∧
      (((runStt inp).terminal = Terminal.quotaExceeded ∨
        (runStt inp).terminal = Terminal.noSpeech ∨
        (runStt inp).terminal = Terminal.success) → (runStt inp).refunds = 0) := by
  intro inp
  obtain ⟨r, rd, nt, dt, ro, ⟨t1, e1⟩, ⟨t2, e2⟩, ⟨t3, e3⟩, ⟨t4, e4⟩⟩ := inp
  revert r rd nt dt ro t1 e1 t2 e2 t3 e3 t4 e4
  decide

/-- C2 witness: the amended theorem applied to a quota-denied run shows it
refunds nothing. -/
theorem c2_refund_witness :
    (runStt ⟨false, true, false, false, false, ⟨false, false⟩, ⟨false, false⟩,
             ⟨false, false⟩, ⟨false, false⟩⟩).refunds = 0 :=
  (c2_refund_amended ⟨false, true, false, false, false, ⟨false, false⟩,
    ⟨false, false⟩, ⟨false, false⟩, ⟨false, false⟩⟩).2.2.2 (by decide)

/-- Helper: an if-then-else with both branches in a list is in the list. -/
theorem mem_ite {α : Type} {P : Prop} [Decidable P] {a b : α} {L : List α}
    (ha : a ∈ L) (hb : b ∈ L) : (if P then a else b) ∈ L := by
  split_ifs <;> assumption

/-- C9: any text containing a Thai character classifies as th-TH (the Thai
check runs first), and any text matching no higher-priority script range but
containing a Cyrillic character classifies as uk-UA when one of the letters
of UK CYRL SPECIAL is present and ru-RU otherwise. -/
theorem c9_script_detection :
    (∀ s : String, has_thai s = true → detect_script_from_text s = "th-TH") ∧
    (∀ s : String, has_thai s = false → has_japanese s = false →
      has_korean s = false → has_chinese s = false → has_khmer s = false →
      has_myanmar s = false → has_devanagari s = false → has_arabic s = false →
      has_cyrillic s = true →
      detect_script_from_text s =
        (if hasUkSpecial s then "uk-UA" else "ru-RU")) := by
  constructor
  · intro s h
    simp only [detect_script_from_text, h, if_true]
  · intro s h1 h2 h3 h4 h5 h6 h7 h8 h9
    simp only [detect_script_from_text, h1, h2, h3, h4, h5, h6, h7, h8, h9,
               if_true, if_false, Bool.false_eq_true]

/-- C9 witness: a Thai greeting classifies as th-TH; a Ukrainian greeting
(carrying the letter 0456) and a Russian greeting take the Cyrillic branch. -/
theorem c9_script_detection_witness :
    detect_script_from_text "สวัสดี" = "th-TH" ∧
    detect_script_from_text "Привіт" =
      (if hasUkSpecial "Привіт" then "uk-UA" else "ru-RU") ∧
    detect_script_from_text "Привет" =
      (if hasUkSpecial "Привет" then "uk-UA" else "ru-RU") :=
  ⟨c9_script_detection.1 "สวัสดี" (by decide),
   c9_script_detection.2 "Привіт" (by decide) (by decide) (by decide) (by decide)
     (by decide) (by decide) (by decide) (by decide) (by decide),
   c9_script_detection.2 "Привет" (by decide) (by decide) (by decide) (by decide)
     (by decide) (by decide) (by decide) (by decide) (by decide)⟩

/-- C10: script detection is total with its image inside a fixed set of
twenty BCP-47 codes; any string with no character in the nine script ranges
and no Latin hint word — the empty string included — yields en-US. -/
theorem c10_detect_total :
    (∀ s : String, detect_script_from_text s ∈
      ["th-TH", "ja-JP", "ko-KR", "cmn-Hans-CN", "km-KH", "my-MM", "hi-IN",
       "ar-SA", "uk-UA", "ru-RU", "vi-VN", "id-ID", "fil-PH", "fr-FR", "de-DE",
       "es-ES", "it-IT", "pt-PT", "pl-PL", "en-US"]) ∧
    (∀ s : String,
      has_thai s = false → has_japanese s = false → has_korean s = false →
      has_chinese s = false → has_khmer s = false → has_myanmar s = false →
      has_devanagari s = false → has_arabic s = false → has_cyrillic s = false →
      looks_vietnamese (pyLower s) = false → looks_indonesian (pyLower s) = false →
      looks_filipino (pyLower s) = false → looks_french (pyLower s) = false →
      looks_german (pyLower s) = false → looks_spanish (pyLower s) = false →
      looks_italian (pyLower s) = false → looks_portuguese (pyLower s) = false →
      looks_polish (pyLower s) = false →
      detect_script_from_text s = "en-US") ∧
    detect_script_from_text "" = "en-US" := by
  refine ⟨?_, ?_, by decide⟩
  · intro s
    unfold detect_script_from_text
    repeat
      first
      | exact (by decide)
      | apply mem_ite
  · intro s h1 h2 h3 h4 h5 h6 h7 h8 h9 g1 g2 g3 g4 g5 g6 g7 g8 g9
    unfold detect_script_from_text
    rw [h1, h2, h3, h4, h5, h6, h7, h8, h9]
    simp only [Bool.false_eq_true, if_false]
    rw [g1, g2, g3, g4, g5, g6, g7, g8, g9]
    simp only [Bool.false_eq_true, if_false]

/-- C10 witness: plain Latin text without hint words classifies as en-US. -/
theorem c10_detect_total_witness :
    detect_script_from_text "hello world" = "en-US" :=
  c10_detect_total.2.1 "hello world" (by decide) (by decide) (by decide)
    (by decide) (by decide) (by decide) (by decide) (by decide) (by decide)
    (by decide) (by decide) (by decide) (by decide) (by decide) (by decide)
    (by decide) (by decide) (by decide)

/-- Helper: one step of the de-duplicating loop grows the output by at most
one entry. -/
theorem normStep_len (acc : List String × List String) (x : String) :
    ((normStep acc x).1).length ≤ acc.1.length + 1 := by
  unfold normStep
  cases norm_lang (some x) with
  | none => simp
  | some m =>
    simp only []
    split_ifs <;> simp

/-- Helper: the de-duplicating fold grows the output by at most the input
length. -/
theorem normFold_len (cs : List String) (acc : List String × List String) :
    ((cs.foldl normStep acc).1).length ≤ acc.1.length + cs.length := by
  induction cs generalizing acc with
  | nil => simp
  | cons a rest ih =>
    calc ((rest.foldl normStep (normStep acc a)).1).length
        ≤ (normStep acc a).1.length + rest.length := ih _
      _ ≤ (acc.1.length + 1) + rest.length :=
          Nat.add_le_add_right (normStep_len acc a) _
      _ = acc.1.length + (a :: rest).length := by simp; omega

/-- Helper: normalization and de-duplication never lengthen the alternates. -/
theorem norm_alt_codes_len (codes : Option (List String)) :
    ((norm_alt_codes codes).getD []).length ≤ (codes.getD []).length := by
  cases codes with
  | none => simp [norm_alt_codes]
  | some cs =>
    unfold norm_alt_codes
    by_cases he : cs.isEmpty
    · simp [he]
    · simp only [he, if_false]
      by_cases ho : ((cs.foldl normStep ([], [])).1).isEmpty
      · simp [ho]
      · simp only [ho, if_false]
        simpa using normFold_len cs ([], [])

/-- Helper: the en-US insurance adds at most one entry. -/
theorem ensure_en_alts_len (lc : String) (o : Option (List String)) :
    ((ensure_en_alts lc o).getD []).length ≤ (o.getD []).length + 1 := by
  cases o <;>
    (simp only [ensure_en_alts]
     split_ifs <;> simp)

/-- Helper: the long-running client's filtering never lengthens the list. -/
theorem longrun_alt_codes_len (o : Option (List String)) :
    ((longrun_alt_codes o).getD []).length ≤ (o.getD []).length := by
  cases o with
  | none => simp [longrun_alt_codes]
  | some l =>
    simp only [longrun_alt_codes]
    split_ifs <;> simp [List.length_filter_le]

/-- C6 counterexample: a delegated long-running request built from exactly
three caller alternates and the th-TH primary carries four codes after the
en-US insurance, refuting the at-most-three claim. -/
theorem c6_alt_limit_cex :
    sync_delegated_alts (some "th-TH") (some ["ja-JP", "ko-KR", "cmn-Hans-CN"]) =
      some ["en-US", "ja-JP", "ko-KR", "cmn-Hans-CN"] ∧
    ((sync_delegated_alts (some "th-TH")
        (some ["ja-JP", "ko-KR", "cmn-Hans-CN"])).getD []).length = 4 := by
  constructor <;> decide

/-- C6 amended: when the caller passes at most three alternates (the
orchestrator always slices to three), the direct sync request carries at most
three codes, while a delegated long-running request carries at most four —
the three caller codes plus possibly the ensured en-US. -/
theorem c6_alt_limit_amended :
    ∀ (codes : Option (List String)) (lang : Option String),
      (codes.getD []).length ≤ 3 →
      ((sync_direct_alts codes).getD []).length ≤ 3 ∧
      ((sync_delegated_alts lang codes).getD []).length ≤ 4 := by
  intro codes lang h
  constructor
  · exact le_trans (norm_alt_codes_len codes) h
  · unfold sync_delegated_alts
    calc ((longrun_alt_codes (ensure_en_alts ((norm_lang lang).getD "th-TH")
            (norm_alt_codes codes))).getD []).length
        ≤ ((ensure_en_alts ((norm_lang lang).getD "th-TH")
            (norm_alt_codes codes)).getD []).length := longrun_alt_codes_len _
      _ ≤ ((norm_alt_codes codes).getD []).length + 1 := ensure_en_alts_len _ _
      _ ≤ (codes.getD []).length + 1 :=
          Nat.add_le_add_right (norm_alt_codes_len codes) 1
      _ ≤ 4 := by omega

/-- C6 witness: the amended bound applied to a two-entry alternate list. -/
theorem c6_alt_limit_witness :
    ((sync_direct_alts (some ["ja-JP", "ko-KR"])).getD []).length ≤ 3 ∧
    ((sync_delegated_alts (some "th-TH") (some ["ja-JP", "ko-KR"])).getD []).length ≤ 4 :=
  c6_alt_limit_amended (some ["ja-JP", "ko-KR"]) (some "th-TH") (by decide)

/-- Helper: the list-or-None idiom yields None exactly on the empty list. -/
theorem listOrNone_eq_none (l : List String) : listOrNone l = none ↔ l = [] := by
  unfold listOrNone
  split_ifs with h <;> simp_all

/-- Helper: the list-or-None idiom keeps a non-empty list. -/
theorem listOrNone_of_ne (l : List String) (h : l ≠ []) : listOrNone l = some l := by
  unfold listOrNone
  simp [h]

/-- Helper: the round-2 fallback of the chooser never returns None once
round 1 is falsy and the smart list is non-empty. -/
theorem opt_fallback_ne_none (r2 : Option (List String)) (tk : List String)
    (b : Bool) (hb : b = true) :
    (if r2.isNone && roundFalsy none && b then some tk else r2) ≠ none := by
  cases r2 <;> simp [hb, roundFalsy]

/-- Helper: round 1 of the chooser at the default threshold 2 and limit 3. -/
theorem chooser_r1 (base : String) (seq : List String)
    (bias : Option (List (String × Rat))) (ex : Option (List String)) :
    (choose_alts_strict_first base seq true bias 2 ex 3).1 =
      (if biasTruthy bias ∧ 2 ≤ biasGet bias base then none
       else listOrNone (seq.take 3)) := by
  simp only [choose_alts_strict_first, Bool.true_and]
  by_cases hb : biasTruthy bias
  · by_cases hg : (2 : Rat) ≤ biasGet bias base <;> simp [hb, hg, ge_iff_le]
  · simp [hb]

/-- C7 counterexample: with a smart list of four entries and a context score
of exactly 2.0 on the primary, round 1 is None although the score does not
exceed the threshold; and with a duplicated entry and no explicit exclude
list, round 2 repeats an entry of round 1. -/
theorem c7_chooser_cex :
    choose_alts_strict_first "th-TH" ["en-US", "ja-JP", "ko-KR", "vi-VN"] true
        (some [("th-TH", 2)]) 2 none 3 = (none, some ["vi-VN"]) ∧
    choose_alts_strict_first "th-TH" ["en-US", "ja-JP", "ko-KR", "en-US", "vi-VN"]
        true (some [("th-TH", 0)]) 2 none 3 =
      (some ["en-US", "ja-JP", "ko-KR"], some ["en-US", "vi-VN"]) := by
  constructor <;> decide

/-- C7 amended: with the default threshold 2 and limit 3, round 1 is None
exactly when the list is empty or the bias map is truthy and the primary's
score is at least (not strictly above) the threshold; a non-None round 1 is
the first up-to-3 entries; with a non-empty explicit exclude list and a
non-empty filtered remainder, round 2 is the next up-to-3 slice after
removing that list, whose entries it therefore never repeats — duplicates of
round 1 are only excluded that way; with no exclude list (or an empty one)
round 2 is the plain next up-to-3 slice whenever the remainder is non-empty;
and a falsy (None) round 1 over a non-empty list always leaves a non-None
round 2, which falls back to the first up-to-3 entries whenever the remainder
after position 3 is empty or the exclude list has filtered it away. -/
theorem c7_chooser_amended :
    ∀ (base : String) (seq : List String) (bias : Option (List (String × Rat)))
      (ex : Option (List String)),
      ((choose_alts_strict_first base seq true bias 2 ex 3).1 = none ↔
        (seq = [] ∨ (biasTruthy bias = true ∧ 2 ≤ biasGet bias base))) ∧
      ((choose_alts_strict_first base seq true bias 2 ex 3).1 ≠ none →
        (choose_alts_strict_first base seq true bias 2 ex 3).1 =
          some (seq.take 3)) ∧
      (∀ l : List String, ex = some l → l ≠ [] →
        (seq.drop 3).filter (fun x => !l.contains x) ≠ [] →
        (choose_alts_strict_first base seq true bias 2 ex 3).2 =
          some (((seq.drop 3).filter (fun x => !l.contains x)).take 3) ∧
        (∀ x ∈ ((seq.drop 3).filter (fun x => !l.contains x)).take 3,
          l.contains x = false)) ∧
      ((ex = none ∨ ex = some []) → seq.drop 3 ≠ [] →
        (choose_alts_strict_first base seq true bias 2 ex 3).2 =
          some ((seq.drop 3).take 3)) ∧
      ((choose_alts_strict_first base seq true bias 2 ex 3).1 = none →
        seq ≠ [] →
        (choose_alts_strict_first base seq true bias 2 ex 3).2 ≠ none) ∧
      ((choose_alts_strict_first base seq true bias 2 ex 3).1 = none →
        seq ≠ [] → seq.drop 3 = [] →
        (choose_alts_strict_first base seq true bias 2 ex 3).2 =
          some (seq.take 3)) ∧
      (∀ l : List String, ex = some l → l ≠ [] →
        (seq.drop 3).filter (fun x => !l.contains x) = [] →
        (choose_alts_strict_first base seq true bias 2 ex 3).1 = none →
        seq ≠ [] →
        (choose_alts_strict_first base seq true bias 2 ex 3).2 =
          some (seq.take 3)) := by
  intro base seq bias ex
  refine ⟨?_, ?_, ?_, ?_, ?_, ?_, ?_⟩
  · rw [chooser_r1]
    split_ifs with h
    · simp [h]
    · rw [listOrNone_eq_none, List.take_eq_nil_iff]
      simp [h]
  · rw [chooser_r1]
    split_ifs with h
    · simp
    · intro hne
      rw [listOrNone_of_ne]
      intro htake
      exact hne ((listOrNone_eq_none _).mpr htake)
  · intro l hl hlne hfne
    subst hl
    have hemp : l.isEmpty = false := by
      cases l with
      | nil => exact absurd rfl hlne
      | cons a t => rfl
    have htake : ((seq.drop 3).filter (fun x => !l.contains x)).take 3 ≠ [] := by
      rw [Ne, List.take_eq_nil_iff]
      rintro (h3 | hnil)
      · exact absurd h3 (by decide)
      · exact hfne hnil
    constructor
    · simp only [choose_alts_strict_first, Bool.true_and, hemp, Bool.not_false,
                 if_true, listOrNone_of_ne _ htake, Option.isNone_some,
                 Bool.false_and, Bool.false_eq_true, if_false]
    · intro x hx
      have hx' := List.mem_of_mem_take hx
      have hpx := List.of_mem_filter hx'
      simpa using hpx
  · intro hex hdrop
    have htake : (seq.drop 3).take 3 ≠ [] := by
      rw [Ne, List.take_eq_nil_iff]
      rintro (h3 | hnil)
      · exact absurd h3 (by decide)
      · exact hdrop hnil
    rcases hex with hex | hex <;> subst hex <;>
      simp only [choose_alts_strict_first, Bool.true_and, List.isEmpty_nil,
                 Bool.not_true, Bool.false_eq_true, if_false,
                 listOrNone_of_ne _ htake, Option.isNone_some, Bool.false_and]
  · intro h1 hseq
    have hne : seq.isEmpty = false := by
      cases seq with
      | nil => exact absurd rfl hseq
      | cons a t => rfl
    have hb : (!seq.isEmpty) = true := by simp [hne]
    cases ex with
    | none =>
      simp only [choose_alts_strict_first, Bool.true_and] at h1 ⊢
      rw [h1]
      exact opt_fallback_ne_none _ _ _ hb
    | some l =>
      by_cases hl : l.isEmpty
      · simp only [choose_alts_strict_first, Bool.true_and, hl] at h1 ⊢
        rw [h1]
        exact opt_fallback_ne_none _ _ _ hb
      · have hl' : l.isEmpty = false := by
          revert hl
          cases l.isEmpty <;> simp
        simp only [choose_alts_strict_first, Bool.true_and, hl',
                   Bool.not_false, if_true] at h1 ⊢
        rw [h1]
        exact opt_fallback_ne_none _ _ _ hb
  · intro h1 hseq hdrop
    have hne : seq.isEmpty = false := by
      cases seq with
      | nil => exact absurd rfl hseq
      | cons a t => rfl
    cases ex with
    | none =>
      simp only [choose_alts_strict_first, Bool.true_and] at h1 ⊢
      rw [h1, hdrop]
      simp [listOrNone, roundFalsy, hne]
    | some l =>
      by_cases hl : l.isEmpty
      · simp only [choose_alts_strict_first, Bool.true_and, hl] at h1 ⊢
        rw [h1, hdrop]
        simp [listOrNone, roundFalsy, hne]
      · have hl' : l.isEmpty = false := by
          revert hl
          cases l.isEmpty <;> simp
        simp only [choose_alts_strict_first, Bool.true_and, hl',
                   Bool.not_false, if_true] at h1 ⊢
        rw [h1, hdrop]
        simp [listOrNone, roundFalsy, hne]
  · intro l hl hlne hfil h1 hseq
    subst hl
    have hne : seq.isEmpty = false := by
      cases seq with
      | nil => exact absurd rfl hseq
      | cons a t => rfl
    have hl' : l.isEmpty = false := by
      cases l with
      | nil => exact absurd rfl hlne
      | cons a t => rfl
    simp only [choose_alts_strict_first, Bool.true_and, hl',
               Bool.not_false, if_true] at h1 ⊢
    rw [h1, hfil]
    simp [listOrNone, roundFalsy, hne]

/-- C7 witness: the amended theorem applied to a five-entry smart list with a
confident bias and an explicit exclude list actually removing a round-2
candidate; to a four-entry list with no exclude list, whose round 2 is the
plain next slice; and to a two-entry list under a confident bias, whose
round 2 falls back to the first up-to-3 entries. -/
theorem c7_chooser_witness :
    (choose_alts_strict_first "th-TH"
        ["en-US", "ja-JP", "ko-KR", "vi-VN", "fr-FR"] true
        (some [("th-TH", 3)]) 2 (some ["vi-VN"]) 3).2 =
      some ((((["en-US", "ja-JP", "ko-KR", "vi-VN", "fr-FR"] : List String).drop 3).filter
        (fun x => !(["vi-VN"] : List String).contains x)).take 3) ∧
    (choose_alts_strict_first "th-TH" ["en-US", "ja-JP", "ko-KR", "vi-VN"] true
        none 2 none 3).2 =
      some (((["en-US", "ja-JP", "ko-KR", "vi-VN"] : List String).drop 3).take 3) ∧
    (choose_alts_strict_first "th-TH" ["en-US", "ja-JP"] true
        (some [("th-TH", 3)]) 2 none 3).2 =
      some ((["en-US", "ja-JP"] : List String).take 3) :=
  ⟨((c7_chooser_amended "th-TH" ["en-US", "ja-JP", "ko-KR", "vi-VN", "fr-FR"]
      (some [("th-TH", 3)]) (some ["vi-VN"])).2.2.1 ["vi-VN"] rfl (by decide)
      (by decide)).1,
   (c7_chooser_amended "th-TH" ["en-US", "ja-JP", "ko-KR", "vi-VN"] none
      none).2.2.2.1 (Or.inl rfl) (by decide),
   (c7_chooser_amended "th-TH" ["en-US", "ja-JP"] (some [("th-TH", 3)])
      none).2.2.2.2.2.1 (by decide) (by decide) (by decide)⟩

/-- Helper: a list starting with a cons pattern is itself that cons. -/
theorem listStarts_headEq {r : List Char} {c : Char} {p : List Char}
    (h : listStarts r (c :: p) = true) : ∃ t, r = c :: t := by
  cases r with
  | nil => simp [listStarts] at h
  | cons a t =>
    simp [listStarts] at h
    exact ⟨t, by rw [h.1]⟩

/-- Helper: two endswith patterns with different last characters are mutually
exclusive. -/
theorem strEnds_excl (s p q : String) {c d : Char} {tp tq : List Char}
    (hp : p.data.reverse = c :: tp) (hq : q.data.reverse = d :: tq)
    (hcd : c ≠ d) (h : strEnds s p = true) : strEnds s q = false := by
  unfold strEnds at *
  rw [hp] at h
  obtain ⟨t, ht⟩ := listStarts_headEq h
  rw [hq, ht]
  simp [listStarts]
  intro he
  exact absurd he hcd

/-- C4 counterexample: with a bucket configured, a 2 000 001-byte blob of an
unknown compressed type (wma) is routed to the long-running backend although
it is outside the claim's compressed family and under 9 MB; and without a
bucket a 1 800 001-byte mp3 stays on sync although the claim puts it on
long. -/
theorem c4_backend_cex :
    effectiveBackend true 2000001 (some "voice.wma") (some "audio/x-ms-wma") =
      SttBackend.long ∧
    specUseLong 2000001 (some "voice.wma") (some "audio/x-ms-wma") = false ∧
    effectiveBackend false 1800001 (some "song.mp3") (some "audio/mpeg") =
      SttBackend.sync ∧
    specUseLong 1800001 (some "song.mp3") (some "audio/mpeg") = true := by
  refine ⟨by decide, by decide, by decide, by decide⟩

/-- C4 amended: with a bucket configured the long-running backend is selected
iff the blob is over 9 MB or the encoding derived from its name and MIME is a
compressed one — MP3, OGG OPUS, WEBM OPUS or ENCODING UNSPECIFIED, the latter
covering unknown types beyond the spec's listed family — and the blob is over
1.8 MB; without a bucket only the 9 MB rule applies; a 9 000 000-byte wav is
sync, 9 000 001 bytes are long, a 1 800 001-byte mp3 is long; and every blob
of the spec's extension family without a declared MIME goes long above
1.8 MB. -/
theorem c4_backend_amended :
    (∀ (size : Nat) (fn ct : Option String),
      effectiveBackend true size fn ct = SttBackend.long ↔
        (events_use_long size ||
         should_force_longrun (mime_to_encoding (guess_mime_by_ext fn ct) fn)
           size) = true) ∧
    (∀ (size : Nat) (fn ct : Option String),
      effectiveBackend false size fn ct = SttBackend.long ↔
        events_use_long size = true) ∧
    (effectiveBackend true 9000000 (some "a.wav") (some "audio/wav") =
        SttBackend.sync ∧
     effectiveBackend true 9000001 (some "a.wav") (some "audio/wav") =
        SttBackend.long ∧
     effectiveBackend true 1800001 (some "song.mp3") (some "audio/mpeg") =
        SttBackend.long) ∧
    (∀ (size : Nat) (fn : Option String), 1800000 < size →
      specCompressedFamily fn none = true →
      effectiveBackend true size fn none = SttBackend.long) := by
  refine ⟨?_, ?_, ⟨by decide, by decide, by decide⟩, ?_⟩
  · intro size fn ct
    unfold effectiveBackend sync_client_goes_long
    by_cases h9 : 9000000 < size
    · simp [events_use_long, h9]
    · cases hf : should_force_longrun
          (mime_to_encoding (guess_mime_by_ext fn ct) fn) size <;>
        simp [events_use_long, h9, hf]
  · intro size fn ct
    unfold effectiveBackend sync_client_goes_long
    by_cases h9 : 9000000 < size <;> simp [events_use_long, h9]
  · intro size fn hsize hfam
    simp +decide [specCompressedFamily] at hfam
    rcases hfam with ((((h | h) | h) | h) | h) | h
    · have ewav := strEnds_excl _ ".mp3" ".wav" rfl rfl (by decide) h
      have eflac := strEnds_excl _ ".mp3" ".flac" rfl rfl (by decide) h
      have ewebm := strEnds_excl _ ".mp3" ".webm" rfl rfl (by decide) h
      have eogg := strEnds_excl _ ".mp3" ".ogg" rfl rfl (by decide) h
      have eopus := strEnds_excl _ ".mp3" ".opus" rfl rfl (by decide) h
      by_cases h9 : 9000000 < size <;>
        simp +decide [effectiveBackend, events_use_long, sync_client_goes_long,
          guess_mime_by_ext, guessMimeByName, mime_to_encoding,
          should_force_longrun, h, ewav, eflac, ewebm, eogg, eopus, h9, hsize]
    · have ewav := strEnds_excl _ ".m4a" ".wav" rfl rfl (by decide) h
      have eflac := strEnds_excl _ ".m4a" ".flac" rfl rfl (by decide) h
      have emp3 := strEnds_excl _ ".m4a" ".mp3" rfl rfl (by decide) h
      have ewebm := strEnds_excl _ ".m4a" ".webm" rfl rfl (by decide) h
      have eogg := strEnds_excl _ ".m4a" ".ogg" rfl rfl (by decide) h
      have eopus := strEnds_excl _ ".m4a" ".opus" rfl rfl (by decide) h
      by_cases h9 : 9000000 < size <;>
        simp +decide [effectiveBackend, events_use_long, sync_client_goes_long,
          guess_mime_by_ext, guessMimeByName, mime_to_encoding,
          should_force_longrun, h, ewav, eflac, emp3, ewebm, eogg, eopus, h9,
          hsize]
    · have ewav := strEnds_excl _ ".mp4" ".wav" rfl rfl (by decide) h
      have eflac := strEnds_excl _ ".mp4" ".flac" rfl rfl (by decide) h
      have emp3 := strEnds_excl _ ".mp4" ".mp3" rfl rfl (by decide) h
      have em4a := strEnds_excl _ ".mp4" ".m4a" rfl rfl (by decide) h
      have eaac := strEnds_excl _ ".mp4" ".aac" rfl rfl (by decide) h
      have eogg := strEnds_excl _ ".mp4" ".ogg" rfl rfl (by decide) h
      have eopus := strEnds_excl _ ".mp4" ".opus" rfl rfl (by decide) h
      have ewebm := strEnds_excl _ ".mp4" ".webm" rfl rfl (by decide) h
      by_cases h9 : 9000000 < size <;>
        simp +decide [effectiveBackend, events_use_long, sync_client_goes_long,
          guess_mime_by_ext, guessMimeByName, mime_to_encoding,
          should_force_longrun, h, ewav, eflac, emp3, em4a, eaac, eogg, eopus,
          ewebm, h9, hsize]
    · have ewav := strEnds_excl _ ".ogg" ".wav" rfl rfl (by decide) h
      have eflac := strEnds_excl _ ".ogg" ".flac" rfl rfl (by decide) h
      have emp3 := strEnds_excl _ ".ogg" ".mp3" rfl rfl (by decide) h
      have em4a := strEnds_excl _ ".ogg" ".m4a" rfl rfl (by decide) h
      have eaac := strEnds_excl _ ".ogg" ".aac" rfl rfl (by decide) h
      have ewebm := strEnds_excl _ ".ogg" ".webm" rfl rfl (by decide) h
      by_cases h9 : 9000000 < size <;>
        simp +decide [effectiveBackend, events_use_long, sync_client_goes_long,
          guess_mime_by_ext, guessMimeByName, mime_to_encoding,
          should_force_longrun, h, ewav, eflac, emp3, em4a, eaac, ewebm, h9,
          hsize]
    · have ewav := strEnds_excl _ ".opus" ".wav" rfl rfl (by decide) h
      have eflac := strEnds_excl _ ".opus" ".flac" rfl rfl (by decide) h
      have emp3 := strEnds_excl _ ".opus" ".mp3" rfl rfl (by decide) h
      have em4a := strEnds_excl _ ".opus" ".m4a" rfl rfl (by decide) h
      have eaac := strEnds_excl _ ".opus" ".aac" rfl rfl (by decide) h
      have eogg := strEnds_excl _ ".opus" ".ogg" rfl rfl (by decide) h
      have ewebm := strEnds_excl _ ".opus" ".webm" rfl rfl (by decide) h
      by_cases h9 : 9000000 < size <;>
        simp +decide [effectiveBackend, events_use_long, sync_client_goes_long,
          guess_mime_by_ext, guessMimeByName, mime_to_encoding,
          should_force_longrun, h, ewav, eflac, emp3, em4a, eaac, eogg, ewebm,
          h9, hsize]
    · have ewav := strEnds_excl _ ".webm" ".wav" rfl rfl (by decide) h
      have eflac := strEnds_excl _ ".webm" ".flac" rfl rfl (by decide) h
      have emp3 := strEnds_excl _ ".webm" ".mp3" rfl rfl (by decide) h
      have em4a := strEnds_excl _ ".webm" ".m4a" rfl rfl (by decide) h
      have eaac := strEnds_excl _ ".webm" ".aac" rfl rfl (by decide) h
      have eogg := strEnds_excl _ ".webm" ".ogg" rfl rfl (by decide) h
      have eopus := strEnds_excl _ ".webm" ".opus" rfl rfl (by decide) h
      by_cases h9 : 9000000 < size <;>
        simp +decide [effectiveBackend, events_use_long, sync_client_goes_long,
          guess_mime_by_ext, guessMimeByName, mime_to_encoding,
          should_force_longrun, h, ewav, eflac, emp3, em4a, eaac, eogg, eopus,
          h9, hsize]

/-- C4 witness: the amended family rule applied to a 2.5 MB ogg blob with no
declared MIME. -/
theorem c4_backend_witness :
    effectiveBackend true 2500000 (some "clip.ogg") none = SttBackend.long :=
  c4_backend_amended.2.2.2 2500000 (some "clip.ogg") (by decide) (by decide)

end SaltyBot
